import Mathlib

/-!
Shallow embedding of the asynchronous task service in `src/backend/main.py`
(a FastAPI application delegating background work to Celery), together with
theorems settling the specification's claims about it.

The embedding models:
* the Celery result-backend visible to `AsyncResult` as an association list
  from task id to stored task metadata (status string and optional result);
* the endpoint `check_task_status` (`main.py` lines 26-34);
* the endpoint `trigger_task` (`main.py` lines 21-24), with the broker queue
  made explicit and the freshly generated task id passed as a parameter;
* the work function `long_running_task` (`main.py` lines 14-19), with the
  wall-clock timestamp passed as a parameter and the append-only log file
  `task.log` modelled as the list of strings written to it;
* the task lifecycle state machine of the specification (spec 4.3), which the
  repository delegates to the external Celery worker machinery and which is
  therefore modelled from the specification text.
-/

/-- Metadata stored for one task in the Celery result backend: the task's
status string and its stored result (absent when none was recorded). -/
structure TaskMeta where
  status : String
  result : Option String
deriving DecidableEq

/-- The Celery result backend as visible to `AsyncResult`: a finite map from
task id to stored metadata, as an association list. -/
abbrev ResultBackend : Type := List (String × TaskMeta)

/-- Modelled from Celery `AsyncResult` semantics as recorded in the
specification (spec 6): looking up a task id that the result backend does not
know yields status "PENDING" with no result; a known id yields its stored
metadata. -/
def asyncResult (backend : ResultBackend) (task_id : String) : TaskMeta :=
  match List.lookup task_id backend with
  | some meta => meta
  | none => { status := "PENDING", result := none }

/-- The JSON object returned by `GET /task/status/{task_id}`: by construction
it has exactly the fields `task_id`, `status` and `result`
(`main.py` lines 30-34). -/
structure StatusResponse where
  task_id : String
  status : String
  result : Option String
deriving DecidableEq

/-- `check_task_status` (`main.py` lines 26-34): builds the response from the
`AsyncResult` of the given id, nulling the `result` field unless the status
is "SUCCESS". -/
def check_task_status (backend : ResultBackend) (task_id : String) :
    StatusResponse :=
  let task := asyncResult backend task_id
  { task_id := task_id
    status := task.status
    result := if task.status = "SUCCESS" then task.result else none }

/-- The JSON object returned by `GET /task/{device_token}`
(`main.py` line 24). -/
structure TriggerResponse where
  task_id : String
  message : String
deriving DecidableEq

/-- The state of the application's external collaborators: the Celery result
backend and the broker queue of not-yet-executed task messages
(task id paired with the submitted device token). -/
structure AppState where
  backend : ResultBackend
  queue : List (String × String)
deriving DecidableEq

/-- `long_running_task.delay(device_token)` (`main.py` line 23): places one
message on the broker queue and hands back the generated task id. The fresh
id generated by Celery is passed in as `fresh_id`. The result backend is not
touched: nothing is stored for the task until a worker finishes it. -/
def delay (st : AppState) (fresh_id : String) (device_token : String) :
    String × AppState :=
  (fresh_id, { st with queue := st.queue ++ [(fresh_id, device_token)] })

/-- `trigger_task` (`main.py` lines 21-24): enqueues the work via `delay` and
immediately returns `{"task_id": task.id, "message": "Task queued"}`. It
performs no validation of `device_token` and does not wait for execution. -/
def trigger_task (st : AppState) (fresh_id : String) (device_token : String) :
    TriggerResponse × AppState :=
  let task := delay st fresh_id device_token
  ({ task_id := task.1, message := "Task queued" }, task.2)

/-- `long_running_task` (`main.py` lines 14-19): simulates work, appends one
line `"Task completed for {device_token} at {time.ctime()}\n"` to `task.log`,
and returns `"Task completed for {device_token}"`. The wall-clock string
`time.ctime()` is the parameter `now`; the log file is the list `log` of
strings written so far. -/
def long_running_task (device_token : String) (now : String)
    (log : List String) : String × List String :=
  ("Task completed for " ++ device_token,
   log ++ ["Task completed for " ++ device_token ++ " at " ++ now ++ "\n"])

/-- Modelled from the spec: the task lifecycle states of spec 4.3. The
registry/executor lifecycle manager is delegated by the repository to the
external Celery worker machinery and is absent from `src/`. -/
inductive TaskState : Type
  | Pending
  | Running
  | Succeeded
  | Failed
deriving DecidableEq

/-- Modelled from the spec: a state is terminal when it is `Succeeded` or
`Failed` (spec 4.3). -/
def TaskState.terminal : TaskState → Bool
  | .Succeeded => true
  | .Failed => true
  | _ => false

/-- Modelled from the spec: the permitted transitions of the task state
machine (spec 4.3): `Pending → Running`, `Running → Succeeded`,
`Running → Failed`, and nothing else. -/
inductive StateStep : TaskState → TaskState → Prop
  | pending_running : StateStep .Pending .Running
  | running_succeeded : StateStep .Running .Succeeded
  | running_failed : StateStep .Running .Failed

/-- Modelled from the spec: a Task Record as read by the status query
(spec 3): lifecycle state, result (present only on success) and error
(present only on failure). -/
structure TaskRecord where
  state : TaskState
  result : Option String
  error : Option String
deriving DecidableEq

/-- Modelled from the spec: one registry update of a record applies one
permitted state transition (spec 4.1: `update` fails with `InvalidTransition`
otherwise, so a stored record only ever changes along `StateStep`). -/
def RecordStep (r r' : TaskRecord) : Prop :=
  StateStep r.state r'.state

/-- Modelled from the spec: an observation history of one task record: at
each instant the record either stays unchanged or undergoes one permitted
registry update. -/
def RecordTrace (trace : Nat → TaskRecord) : Prop :=
  ∀ k, trace (k + 1) = trace k ∨ RecordStep (trace k) (trace (k + 1))

/-- No permitted transition starts from a terminal state. -/
theorem step_not_from_terminal (s t : TaskState) (h : StateStep s t) :
    s.terminal = false := by
  cases h <;> rfl

/-- Along a record trace, a record that has reached a terminal state never
changes again. -/
theorem terminal_record_stays (trace : Nat → TaskRecord)
    (htrace : RecordTrace trace) (n : Nat)
    (hterm : (trace n).state.terminal = true) :
    ∀ m, trace (n + m) = trace n := by
  intro m
  induction m with
  | zero => rfl
  | succ k ih =>
    show trace (n + k + 1) = trace n
    rcases htrace (n + k) with h | h
    · rw [h, ih]
    · exfalso
      have h' : StateStep (trace n).state (trace (n + k + 1)).state := ih ▸ h
      have hf := step_not_from_terminal _ _ h'
      rw [hf] at hterm
      exact Bool.noConfusion hterm

/-- Claim C1: the status endpoint returns an object with exactly the fields
`task_id`, `status` and `result` (the type `StatusResponse` has exactly
those fields by construction), and the `result` field is null for every
status other than "SUCCESS". -/
theorem status_result_null_unless_success (backend : ResultBackend)
    (task_id : String)
    (h : (check_task_status backend task_id).status ≠ "SUCCESS") :
    (check_task_status backend task_id).result = none := by
  simp only [check_task_status] at h ⊢
  simp only [if_neg h]

/-- Witness for C1 at a concrete backend holding a failed task. -/
theorem status_result_null_unless_success_witness :
    (check_task_status [("w1", { status := "FAILURE", result := some "err" })]
      "w1").status ≠ "SUCCESS" ∧
    (check_task_status [("w1", { status := "FAILURE", result := some "err" })]
      "w1").result = none :=
  ⟨by decide,
   status_result_null_unless_success
     [("w1", { status := "FAILURE", result := some "err" })] "w1" (by decide)⟩

/-- Counterexample for C2: for a task recorded as failed with the non-empty
error description "boom", the status endpoint reports status "FAILURE" but a
null `result` — it does not carry the error description in place of the
result, refuting the claim at this concrete input. -/
theorem failure_status_null_result_cex :
    check_task_status [("t2", { status := "FAILURE", result := some "boom" })]
      "t2" =
      { task_id := "t2", status := "FAILURE", result := none } := by
  decide

/-- Claim C2 (amended): for every task whose stored state is "FAILURE", a
status query reports status "FAILURE" with a null `result`; the recorded
error description is not surfaced. -/
theorem failure_status_reports_null_result (backend : ResultBackend)
    (task_id : String)
    (h : (asyncResult backend task_id).status = "FAILURE") :
    (check_task_status backend task_id).status = "FAILURE" ∧
    (check_task_status backend task_id).result = none := by
  refine ⟨by simp [check_task_status, h], ?_⟩
  simp only [check_task_status]
  rw [if_neg]
  rw [h]
  decide

/-- Witness for the amended C2 at a concrete failed task. -/
theorem failure_status_reports_null_result_witness :
    (asyncResult [("t2b", { status := "FAILURE", result := some "oops" })]
      "t2b").status = "FAILURE" ∧
    ((check_task_status [("t2b", { status := "FAILURE", result := some "oops" })]
        "t2b").status = "FAILURE" ∧
      (check_task_status [("t2b", { status := "FAILURE", result := some "oops" })]
        "t2b").result = none) :=
  ⟨by decide,
   failure_status_reports_null_result
     [("t2b", { status := "FAILURE", result := some "oops" })] "t2b" (by decide)⟩

/-- Counterexample for C3: a status query for the never-issued id
"never-issued" against an empty backend returns an ordinary response with
status "PENDING" and null result; no NotFound error condition exists in
`check_task_status` (its return type carries no error, mirroring the Python
endpoint which answers every id with HTTP 200). -/
theorem unknown_id_no_notfound_cex :
    check_task_status [] "never-issued" =
      { task_id := "never-issued", status := "PENDING", result := none } := by
  decide

/-- Claim C3 (amended): for every id the backend does not know, a status
query returns a normal response with status "PENDING" and a null result;
the status query has no NotFound (or any other) error condition. -/
theorem unknown_id_pending_no_error (backend : ResultBackend)
    (task_id : String) (h : List.lookup task_id backend = none) :
    (check_task_status backend task_id).status = "PENDING" ∧
    (check_task_status backend task_id).result = none := by
  constructor <;> simp [check_task_status, asyncResult, h]

/-- Witness for the amended C3 at a concrete unknown id. -/
theorem unknown_id_pending_no_error_witness :
    List.lookup "ghost-3" ([] : ResultBackend) = none ∧
    ((check_task_status [] "ghost-3").status = "PENDING" ∧
      (check_task_status [] "ghost-3").result = none) :=
  ⟨rfl, unknown_id_pending_no_error [] "ghost-3" rfl⟩

/-- Claim C4: for every unknown task id, the status endpoint returns the
same response shape as for a known task (a `StatusResponse`), with status
"PENDING" and result null, rather than a distinct not-found signal. -/
theorem unknown_id_same_shape_pending (backend : ResultBackend)
    (task_id : String) (h : List.lookup task_id backend = none) :
    check_task_status backend task_id =
      { task_id := task_id, status := "PENDING", result := none } := by
  simp [check_task_status, asyncResult, h]

/-- Witness for C4 at a concrete unknown id against a non-empty backend. -/
theorem unknown_id_same_shape_pending_witness :
    List.lookup "ghost-4"
      ([("known", { status := "SUCCESS", result := some "r" })] :
        ResultBackend) = none ∧
    check_task_status [("known", { status := "SUCCESS", result := some "r" })]
      "ghost-4" =
      { task_id := "ghost-4", status := "PENDING", result := none } :=
  ⟨by decide,
   unknown_id_same_shape_pending
     [("known", { status := "SUCCESS", result := some "r" })] "ghost-4"
     (by decide)⟩

/-- Claim C5: the work function's normal-completion result is exactly
"Task completed for " followed by the input token, and once the backend
records the task as succeeded with that result, the status query reports
exactly that string as `result` (with status "SUCCESS"). -/
theorem success_result_matches_work_output (device_token now : String)
    (log : List String) (backend : ResultBackend) (task_id : String)
    (h : List.lookup task_id backend =
      some { status := "SUCCESS",
             result := some (long_running_task device_token now log).1 }) :
    (long_running_task device_token now log).1 =
      "Task completed for " ++ device_token ∧
    (check_task_status backend task_id).status = "SUCCESS" ∧
    (check_task_status backend task_id).result =
      some ("Task completed for " ++ device_token) := by
  refine ⟨rfl, ?_, ?_⟩ <;>
    simp [check_task_status, asyncResult, h, long_running_task]

/-- Witness for C5 at the spec's scenario token "device-42". -/
theorem success_result_matches_work_output_witness :
    (long_running_task "device-42" "t0" []).1 =
      "Task completed for " ++ "device-42" ∧
    (check_task_status
      [("abc-1", { status := "SUCCESS",
                   result := some (long_running_task "device-42" "t0" []).1 })]
      "abc-1").result = some ("Task completed for " ++ "device-42") :=
  ⟨(success_result_matches_work_output "device-42" "t0" []
      [("abc-1", { status := "SUCCESS",
                   result := some (long_running_task "device-42" "t0" []).1 })]
      "abc-1" rfl).1,
   (success_result_matches_work_output "device-42" "t0" []
      [("abc-1", { status := "SUCCESS",
                   result := some (long_running_task "device-42" "t0" []).1 })]
      "abc-1" rfl).2.2⟩

/-- Counterexample for C6: the submission handler accepts the empty input
token: it answers "Task queued" and enqueues a task record for it, instead
of rejecting it with a ValidationError before any record is created. -/
theorem empty_input_accepted_cex :
    (trigger_task { backend := [], queue := [] } "id-1" "").1 =
      { task_id := "id-1", message := "Task queued" } ∧
    (trigger_task { backend := [], queue := [] } "id-1" "").2.queue =
      [("id-1", "")] := by
  decide

/-- Claim C6 (amended): the submission handler performs no input validation:
every input token, including the empty string, is accepted, enqueued on the
broker queue, and answered with "Task queued"; no ValidationError path
exists in `trigger_task`. -/
theorem trigger_task_no_validation (st : AppState)
    (fresh_id device_token : String) :
    (trigger_task st fresh_id device_token).1.message = "Task queued" ∧
    (trigger_task st fresh_id device_token).2.queue =
      st.queue ++ [(fresh_id, device_token)] :=
  ⟨rfl, rfl⟩

/-- Claim C7: for every input token, the submission endpoint returns a body
whose `task_id` is the (string) generated id and whose `message` is exactly
"Task queued", and it returns synchronously: the work has not executed when
it returns — the result backend is untouched and the task message still
sits on the broker queue. -/
theorem trigger_task_synchronous_response (st : AppState)
    (fresh_id device_token : String) :
    (trigger_task st fresh_id device_token).1.task_id = fresh_id ∧
    (trigger_task st fresh_id device_token).1.message = "Task queued" ∧
    (trigger_task st fresh_id device_token).2.backend = st.backend ∧
    (trigger_task st fresh_id device_token).2.queue =
      st.queue ++ [(fresh_id, device_token)] :=
  ⟨rfl, rfl, rfl, rfl⟩

/-- Claim C8: a normal completion of the work function appends exactly one
record to the completion log — one line consisting of the input token and
the completion timestamp — and changes nothing else in the log. -/
theorem work_appends_one_log_line (device_token now : String)
    (log : List String) :
    (long_running_task device_token now log).2 =
      log ++
        ["Task completed for " ++ device_token ++ " at " ++ now ++ "\n"] ∧
    ((long_running_task device_token now log).2).length = log.length + 1 ∧
    (∃ a b : String,
      "Task completed for " ++ device_token ++ " at " ++ now ++ "\n" =
        a ++ device_token ++ b) ∧
    ∃ c d : String,
      "Task completed for " ++ device_token ++ " at " ++ now ++ "\n" =
        c ++ now ++ d := by
  refine ⟨rfl, by simp [long_running_task], ?_, ?_⟩
  · exact ⟨"Task completed for ", " at " ++ now ++ "\n",
      by simp [String.append_assoc]⟩
  · exact ⟨"Task completed for " ++ device_token ++ " at ", "\n",
      by simp [String.append_assoc]⟩

/-- Claim C9: state transitions are monotonic along
Pending → Running → {Succeeded, Failed} — no permitted transition leaves a
terminal state — and along any record trace, once a record is terminal every
later observation returns the identical record (state and result or
error). -/
theorem state_machine_monotonic_terminal_stable (trace : Nat → TaskRecord)
    (htrace : RecordTrace trace) (n : Nat)
    (hterm : (trace n).state.terminal = true) :
    (∀ s t : TaskState, StateStep s t → s.terminal = false) ∧
    ∀ m, n ≤ m → trace m = trace n := by
  refine ⟨step_not_from_terminal, fun m hm => ?_⟩
  have h := terminal_record_stays trace htrace n hterm (m - n)
  rwa [Nat.add_sub_cancel' hm] at h

/-- Witness for C9 on a concrete constant trace sitting at a succeeded
record. -/
theorem state_machine_monotonic_terminal_stable_witness :
    ((fun _ : Nat =>
        ({ state := .Succeeded, result := some "ok", error := none } :
          TaskRecord)) 0).state.terminal = true ∧
    (fun _ : Nat =>
        ({ state := .Succeeded, result := some "ok", error := none } :
          TaskRecord)) 3 =
      (fun _ : Nat =>
        ({ state := .Succeeded, result := some "ok", error := none } :
          TaskRecord)) 0 :=
  ⟨rfl,
   (state_machine_monotonic_terminal_stable
       (fun _ : Nat =>
         ({ state := .Succeeded, result := some "ok", error := none } :
           TaskRecord))
       (fun _ => Or.inl rfl) 0 rfl).2 3 (by decide)⟩

/-- Claim C10: the `task_id` field of the status endpoint's response always
equals the queried id exactly as given, whatever the backend knows about
it. -/
theorem status_echoes_task_id (backend : ResultBackend) (task_id : String) :
    (check_task_status backend task_id).task_id = task_id :=
  rfl
